import Mathlib

/-!
Verification development for the Pact-style contract-testing subsystem of this
repository.  The provider HTTP service (`src/provider/service.py`) and the
workflow runner (`src/scripts/run_pact_tests.py`) are embedded shallowly below:
the FastAPI handlers become pure functions from the in-memory store
(`users_db`, `posts_db`) and the request data to a new store and an HTTP
response.  The contract-matching semantics (matchers, verifier replay) live in
the external `pact` library, so they are modelled from the specification text
and clearly marked as such.
-/

/-- JSON values, as exchanged by the provider's endpoints.  Objects are ordered
association lists, mirroring Python dict insertion order. -/
inductive Json where
  | null
  | bool (b : Bool)
  | num (n : Int)
  | str (s : String)
  | arr (xs : List Json)
  | obj (fields : List (String × Json))
deriving Repr

mutual

/-- Structural equality of JSON values (Python `==` on parsed JSON). -/
def Json.eqb : Json → Json → Bool
  | .null, .null => true
  | .bool a, .bool b => a == b
  | .num a, .num b => a == b
  | .str a, .str b => a == b
  | .arr xs, .arr ys => Json.listEqb xs ys
  | .obj xs, .obj ys => Json.fieldsEqb xs ys
  | _, _ => false

def Json.listEqb : List Json → List Json → Bool
  | [], [] => true
  | x :: xs, y :: ys => x.eqb y && Json.listEqb xs ys
  | _, _ => false

def Json.fieldsEqb : List (String × Json) → List (String × Json) → Bool
  | [], [] => true
  | (k1, v1) :: xs, (k2, v2) :: ys => k1 == k2 && v1.eqb v2 && Json.fieldsEqb xs ys
  | _, _ => false

end

/-- First value bound to key `k` in a JSON object's field list
(Python `dict.get`: dict keys are unique, so first = only). -/
def lookupField (fields : List (String × Json)) (k : String) : Option Json :=
  (fields.find? (fun kv => kv.1 = k)).map (·.2)

/-- Regular expressions, as used by the spec's `Regex` matcher.  `dot` is `.`
(any character); `+` is encoded as `cat r (star r)` via `RE.plus`. -/
inductive RE where
  | emp
  | eps
  | dot
  | chr (c : Char)
  | alt (a b : RE)
  | cat (a b : RE)
  | star (a : RE)
deriving Repr

/-- Does the regex accept the empty string? -/
def RE.nullable : RE → Bool
  | .emp => false
  | .eps => true
  | .dot => false
  | .chr _ => false
  | .alt a b => a.nullable || b.nullable
  | .cat a b => a.nullable && b.nullable
  | .star _ => true

/-- Brzozowski derivative of a regex with respect to a character. -/
def RE.deriv : RE → Char → RE
  | .emp, _ => .emp
  | .eps, _ => .emp
  | .dot, _ => .eps
  | .chr c, d => if c = d then .eps else .emp
  | .alt a b, d => .alt (a.deriv d) (b.deriv d)
  | .cat a b, d =>
      if a.nullable then .alt (.cat (a.deriv d) b) (b.deriv d)
      else .cat (a.deriv d) b
  | .star a, d => .cat (a.deriv d) (.star a)

/-- Full-string regex matching by iterated derivatives. -/
def RE.matchList (r : RE) : List Char → Bool
  | [] => r.nullable
  | c :: cs => (r.deriv c).matchList cs

/-- One-or-more repetition (`r+`). -/
def RE.plus (r : RE) : RE := .cat r (.star r)

/-- Partial-match (`re.search`) semantics: the pattern matches some substring.
The spec fixes search, not full-match, as the Regex matcher's policy. -/
def RE.search (r : RE) (s : String) : Bool :=
  RE.matchList (.cat (.star .dot) (.cat r (.star .dot))) s.data

/- ----------------------------------------------------------------------
Provider service: src/provider/service.py
---------------------------------------------------------------------- -/

/-- A row of `users_db` in src/provider/service.py. -/
structure User where
  id : Int
  name : String
  email : String
  username : String
deriving DecidableEq, Repr

/-- A row of `posts_db` in src/provider/service.py. -/
structure Post where
  id : Int
  userId : Int
  title : String
  body : String
deriving DecidableEq, Repr

/-- Initial value of the module-level `users_db` list. -/
def users_db : List User :=
  [ ⟨1, "John Doe", "john@example.com", "johndoe"⟩,
    ⟨2, "Jane Smith", "jane@example.com", "janesmith"⟩,
    ⟨3, "Bob Johnson", "bob@example.com", "bobjohnson"⟩ ]

/-- Initial value of the module-level `posts_db` list. -/
def posts_db : List Post :=
  [ ⟨1, 1, "First Post", "This is my first post"⟩,
    ⟨2, 1, "Second Post", "This is my second post"⟩,
    ⟨3, 2, "Jane's Post", "Hello from Jane"⟩ ]

/-- The provider's mutable in-memory store: the two module-level lists of
src/provider/service.py. -/
structure ProviderState where
  users_db : List User
  posts_db : List Post
deriving DecidableEq, Repr

/-- The store at provider start-up. -/
def initProviderState : ProviderState := ⟨users_db, posts_db⟩

/-- An HTTP response: status code and JSON body. -/
structure HttpResponse where
  status : Nat
  body : Json
deriving Repr

/-- JSON serialization of a user row (the `UserResponse` pydantic model:
fields id, name, email, username). -/
def userJson (u : User) : Json :=
  .obj [("id", .num u.id), ("name", .str u.name),
        ("email", .str u.email), ("username", .str u.username)]

/-- JSON serialization of a post row (the `PostResponse` pydantic model). -/
def postJson (p : Post) : Json :=
  .obj [("id", .num p.id), ("userId", .num p.userId),
        ("title", .str p.title), ("body", .str p.body)]

/-- Python `str.strip()`'s whitespace set (space, tab, newline, carriage
return, vertical tab, form feed). -/
def isPySpace (c : Char) : Bool :=
  c == ' ' || c == '\t' || c == '\n' || c == '\r' || c == '\x0b' || c == '\x0c'

/-- Python `s.strip()`, on the string's character list. -/
def pyStrip (s : String) : List Char :=
  ((s.data.dropWhile isPySpace).reverse.dropWhile isPySpace).reverse

/-- Decimal value of a non-empty digit sequence. -/
def digitsVal? : List Char → Option Nat
  | [] => none
  | l => l.foldl (fun acc c =>
      match acc, c.isDigit with
      | some n, true => some (n * 10 + (c.toNat - '0'.toNat))
      | _, _ => none) (some 0)

/-- Integer parsing as the int conversions of the server stack perform it on
the strings exercised here (an optional leading minus sign, then digits). -/
def parseIntChars? : List Char → Option Int
  | '-' :: rest => (digitsVal? rest).map (fun n => -(n : Int))
  | l => (digitsVal? l).map (fun n => (n : Int))

/-- Is `p` a leading segment of `l`? -/
def charsLeadWith : List Char → List Char → Bool
  | [], _ => true
  | _ :: _, [] => false
  | p :: ps, c :: cs => p == c && charsLeadWith ps cs

/-- Split a character list at every occurrence of `sep` (Python `str.split`
with an explicit separator: adjacent separators give empty segments). -/
def splitOnChar (sep : Char) : List Char → List (List Char)
  | [] => [[]]
  | c :: rest =>
      let r := splitOnChar sep rest
      if c == sep then [] :: r
      else
        match r with
        | [] => [[c]]
        | seg :: segs => (c :: seg) :: segs

/-- GET /users/\x7buser_id\x7d (`get_user`).  Returns the first user with the
given id, else raises HTTPException(404, detail="User not found"), which
FastAPI serializes as a 404 response with body \x7b"detail": "User not found"\x7d.
The handler never mutates the store, so the state component is returned
unchanged. -/
def get_user (st : ProviderState) (user_id : Int) : ProviderState × HttpResponse :=
  match st.users_db.find? (fun u => u.id = user_id) with
  | some u => (st, ⟨200, userJson u⟩)
  | none => (st, ⟨404, .obj [("detail", .str "User not found")]⟩)

/-- Python list slice `l[:n]`: a negative bound counts from the end,
`Int.toNat` clamps the resulting index at 0. -/
def pySlice (l : List User) (n : Int) : List User :=
  if 0 ≤ n then l.take n.toNat else l.take ((l.length : Int) + n).toNat

/-- GET /users (`get_users`): `users_db[:_limit]`, `_limit` defaulting to 10;
an explicit null limit (Python `None`) slices the whole list. -/
def get_users (st : ProviderState) (lim : Option Int) : ProviderState × HttpResponse :=
  let l := match lim with
    | some n => pySlice st.users_db n
    | none => st.users_db
  (st, ⟨200, .arr (l.map userJson)⟩)

/-- POST /users (`create_user`), after pydantic has accepted the body as a
`UserCreate`.  An all-whitespace name yields 422 with
detail=\x7berror, details\x7d (FastAPI nests HTTPException detail under the
"detail" key); otherwise the new user gets id `max(ids)+1` and is appended.
Python `max` over the empty `users_db` would raise ValueError, which FastAPI
reports as a 500 response. -/
def create_user (st : ProviderState) (name email username : String) :
    ProviderState × HttpResponse :=
  if (pyStrip name).isEmpty then
    (st, ⟨422, .obj [("detail", .obj
      [("error", .str "Validation failed"),
       ("details", .arr [.str "Name is required"])])]⟩)
  else
    match (st.users_db.map (·.id)).max? with
    | none => (st, ⟨500, .obj [("detail", .str "Internal Server Error")]⟩)
    | some m =>
        let newUser : User := ⟨m + 1, name, email, username⟩
        ({ st with users_db := st.users_db ++ [newUser] }, ⟨201, userJson newUser⟩)

/-- GET /posts (`get_posts`): `if userId:` is Python truthiness, so both a
missing userId and userId=0 return the whole `posts_db`. -/
def get_posts (st : ProviderState) (userId : Option Int) : ProviderState × HttpResponse :=
  let truthy : Bool := match userId with
    | some u => u != 0
    | none => false
  if truthy then
    (st, ⟨200, .arr ((st.posts_db.filter (fun p => p.userId = userId.getD 0)).map postJson)⟩)
  else
    (st, ⟨200, .arr (st.posts_db.map postJson)⟩)

/-- The six state names listed by GET /_pact/provider_states. -/
def providerStateNames : List String :=
  [ "user 1 exists",
    "user 999 does not exist",
    "users exist",
    "user creation is allowed",
    "user 1 has posts",
    "user creation validation is enabled" ]

/-- GET /_pact/provider_states (`get_provider_states`): a constant 200
response listing the available states. -/
def get_provider_states : HttpResponse :=
  ⟨200, .obj [("states", .arr (providerStateNames.map .str))]⟩

/-- Python `str()` of the value found under "state" (used only inside the
setup endpoint's result message); `none` is Python `None`.  Container
renderings are abbreviated: no claim inspects the message text. -/
def pyShowStateVal : Option Json → String
  | none => "None"
  | some .null => "None"
  | some (.bool true) => "True"
  | some (.bool false) => "False"
  | some (.num n) => toString n
  | some (.str s) => s
  | some (.arr _) => "[...]"
  | some (.obj _) => "\x7b...\x7d"

/-- Python `state_name == "..."`: equality of the value under "state" with a
string literal.  A missing key (None) or a non-string value is simply unequal. -/
def stateIs (v : Option Json) (s : String) : Bool :=
  match v with
  | some (.str t) => t == s
  | _ => false

/-- POST /_pact/provider_states (`setup_provider_state`).  The request body is
any JSON object (FastAPI `state: dict`); `state.get("state")` is compared
against the four handled names (comparison of a non-string value with a string
is simply unequal in Python).  Every path falls through to the same
200 \x7b"result": ...\x7d response. -/
def setup_provider_state (st : ProviderState) (body : List (String × Json)) :
    ProviderState × HttpResponse :=
  let state_name : Option Json := lookupField body "state"
  let st' : ProviderState :=
    if stateIs state_name "user 1 exists" then
      if st.users_db.any (fun u => u.id = 1) then st
      else { st with users_db := st.users_db ++
        [⟨1, "John Doe", "john@example.com", "johndoe"⟩] }
    else if stateIs state_name "user 999 does not exist" then
      { st with users_db := st.users_db.filter (fun u => u.id ≠ 999) }
    else if stateIs state_name "users exist" then
      if st.users_db.length = 0 then
        { st with users_db := st.users_db ++
          [ ⟨1, "John Doe", "john@example.com", "johndoe"⟩,
            ⟨2, "Jane Smith", "jane@example.com", "janesmith"⟩ ] }
      else st
    else if stateIs state_name "user 1 has posts" then
      if st.posts_db.any (fun p => p.userId = 1) then st
      else { st with posts_db := st.posts_db ++
        [⟨1, 1, "Sample Post Title", "Sample post body content"⟩] }
    else st
  (st', ⟨200, .obj [("result",
    .str ("Provider state \x27" ++ pyShowStateVal state_name ++ "\x27 has been set"))]⟩)

/- ----------------------------------------------------------------------
Workflow runner: src/scripts/run_pact_tests.py
---------------------------------------------------------------------- -/

/-- Inputs that determine `main` of src/scripts/run_pact_tests.py: the return
codes of the consumer-test and provider-verification pytest subprocesses, and
the PACT_BROKER_URL environment variable (`none` when unset). -/
structure RunnerInput where
  consumer_returncode : Int
  provider_returncode : Int
  pact_broker_url : Option String
deriving DecidableEq, Repr

/-- What a run of `main` did: its return value and which optional steps it
reached.  Step 3 (provider verification) runs only when step 1 succeeded;
step 4 (broker publication) only when `if broker_url:` is truthy. -/
structure RunnerOutcome where
  exit_code : Int
  provider_verification_attempted : Bool
  broker_publish_attempted : Bool
deriving DecidableEq, Repr

/-- `main` of src/scripts/run_pact_tests.py.  A failing consumer-test
subprocess returns 1 before the provider-verification subprocess is launched;
a failing verification subprocess returns 1; otherwise `main` returns 0,
running the broker step exactly when PACT_BROKER_URL is a non-empty string
(Python truthiness of `os.getenv`). -/
def run_pact_tests_main (inp : RunnerInput) : RunnerOutcome :=
  if inp.consumer_returncode ≠ 0 then ⟨1, false, false⟩
  else if inp.provider_returncode ≠ 0 then ⟨1, true, false⟩
  else ⟨0, true,
    match inp.pact_broker_url with
    | some s => !s.isEmpty
    | none => false⟩

/- ----------------------------------------------------------------------
Contract matching and provider verification.

The matcher and verifier implementations live in the external `pact`
library, not in this repository, so they are modelled from the spec.
---------------------------------------------------------------------- -/

mutual

/-- Modelled from the spec: the matcher variants of the contract language
(the `pact` library's matching engine is not part of this repository).
`lit` is exact deep equality; `typeLike` accepts any value of the same JSON
type as the example; `regex` accepts strings the pattern matches
(search/partial-match policy, per the spec); `eachLike` accepts non-empty
arrays all of whose elements match the template; `objOf` is an object whose
listed fields must each match, extra keys in the actual object being
ignored (the spec's structural-matching invariant). -/
inductive Matcher where
  | lit (v : Json)
  | typeLike (ex : Json)
  | regex (pattern : RE) (ex : String)
  | eachLike (template : Matcher)
  | objOf (fields : MatcherFields)

/-- The named fields of an expected object, each with its own matcher. -/
inductive MatcherFields where
  | nil
  | cons (key : String) (m : Matcher) (rest : MatcherFields)

end

/-- Builds the field list of an expected object from a Lean list. -/
def MatcherFields.ofList : List (String × Matcher) → MatcherFields
  | [] => .nil
  | (k, m) :: rest => .cons k m (MatcherFields.ofList rest)

/-- An object-shaped expected body (a Python dict in the consumer test whose
values may be matchers or literal values). -/
def objLike (fields : List (String × Matcher)) : Matcher :=
  .objOf (MatcherFields.ofList fields)

/-- Discriminates the six JSON value shapes, for `typeLike`. -/
def jsonTypeTag : Json → Nat
  | .null => 0
  | .bool _ => 1
  | .num _ => 2
  | .str _ => 3
  | .arr _ => 4
  | .obj _ => 5

mutual

/-- Modelled from the spec: whether an actual JSON value satisfies a matcher. -/
def Matcher.matches : Matcher → Json → Bool
  | .lit v, a => v.eqb a
  | .typeLike e, a => jsonTypeTag e == jsonTypeTag a
  | .regex r _, a =>
      match a with
      | .str s => r.search s
      | _ => false
  | .eachLike m, a =>
      match a with
      | .arr xs => !xs.isEmpty && xs.all (fun x => m.matches x)
      | _ => false
  | .objOf fs, a =>
      match a with
      | .obj afs => MatcherFields.allMatch fs afs
      | _ => false

/-- Every expected field is present in the actual object and matches;
actual-object keys not listed among the expected fields are ignored. -/
def MatcherFields.allMatch : MatcherFields → List (String × Json) → Bool
  | .nil, _ => true
  | .cons k m rest, afs =>
      (match lookupField afs k with
       | some av => m.matches av
       | none => false) && MatcherFields.allMatch rest afs

end

/-- Modelled from the spec: a recorded HTTP request of a contract
interaction — method, path, query parameters and optional JSON body. -/
structure HttpRequest where
  method : String
  path : String
  query : List (String × String)
  body : Option Json
deriving Repr

/-- First value of query parameter `k`. -/
def lookupQuery (q : List (String × String)) (k : String) : Option String :=
  (q.find? (fun kv => kv.1 = k)).map (·.2)

/-- Request-body validation that FastAPI/pydantic perform before
`create_user` runs: the body must be a JSON object with string fields name,
email and username, and email must be a syntactically valid address
(`EmailStr`).  The address well-formedness test is approximated — one
at-sign, non-empty local part, dot-containing domain with no leading or
trailing dot — and agrees with pydantic on every string this development
evaluates it on. -/
def validEmail (s : String) : Bool :=
  match splitOnChar '@' s.data with
  | [lp, domain] =>
      !lp.isEmpty && !domain.isEmpty && domain.contains '.' &&
      domain.head? != some '.' && domain.getLast? != some '.'
  | _ => false

/-- Parse a request body as the `UserCreate` pydantic model. -/
def parseUserCreate (body : Option Json) : Option (String × String × String) :=
  match body with
  | some (.obj fs) =>
      match lookupField fs "name", lookupField fs "email", lookupField fs "username" with
      | some (.str n), some (.str e), some (.str u) =>
          if validEmail e then some (n, e, u) else none
      | _, _, _ => none
  | _ => none

/-- FastAPI's 422 response to a request failing model validation: the body
nests pydantic's error items under "detail" (items abbreviated here; no claim
inspects them). -/
def validationErrorResponse : HttpResponse :=
  ⟨422, .obj [("detail", .arr [.obj [("msg", .str "validation error")]])]⟩

/-- The FastAPI app's routing for src/provider/service.py: dispatch one
request to its handler.  Unknown routes get FastAPI's default 404 response. -/
def provider_app (st : ProviderState) (req : HttpRequest) : ProviderState × HttpResponse :=
  if req.method = "GET" ∧ req.path = "/users" then
    match lookupQuery req.query "_limit" with
    | none => get_users st (some 10)
    | some s =>
        match parseIntChars? s.data with
        | some n => get_users st (some n)
        | none => (st, validationErrorResponse)
  else if req.method = "POST" ∧ req.path = "/users" then
    match parseUserCreate req.body with
    | some (n, e, u) => create_user st n e u
    | none => (st, validationErrorResponse)
  else if req.method = "GET" ∧ charsLeadWith "/users/".data req.path.data then
    match parseIntChars? (req.path.data.drop 7) with
    | some i => get_user st i
    | none => (st, validationErrorResponse)
  else if req.method = "GET" ∧ req.path = "/posts" then
    match lookupQuery req.query "userId" with
    | none => get_posts st none
    | some s =>
        match parseIntChars? s.data with
        | some n => get_posts st (some n)
        | none => (st, validationErrorResponse)
  else if req.method = "GET" ∧ req.path = "/_pact/provider_states" then
    (st, get_provider_states)
  else if req.method = "POST" ∧ req.path = "/_pact/provider_states" then
    match req.body with
    | some (.obj fs) => setup_provider_state st fs
    | _ => (st, validationErrorResponse)
  else
    (st, ⟨404, .obj [("detail", .str "Not Found")]⟩)

/-- Modelled from the spec: one interaction of a contract file —
description, optional provider-state label, the recorded request, and the
expected status and body matcher. -/
structure Interaction where
  description : String
  provider_state : Option String
  request : HttpRequest
  expectedStatus : Nat
  expectedBody : Option Matcher

/-- Does an actual response satisfy an interaction's expectation: status is
compared exactly, the body by structural matching. -/
def responseMatches (i : Interaction) (resp : HttpResponse) : Bool :=
  resp.status == i.expectedStatus &&
  (match i.expectedBody with
   | some m => m.matches resp.body
   | none => true)

/-- Modelled from the spec: the Provider Verifier's replay of a single
interaction.  It first POSTs the interaction's state label (if any) to the
provider's state-setup endpoint; a non-2xx setup response is a
StateSetupError and the interaction fails without the request being sent.
Otherwise the recorded request is executed against the provider and the
response compared with the recorded expectation. -/
def verifyInteraction (st : ProviderState) (i : Interaction) : ProviderState × Bool :=
  match i.provider_state with
  | some name =>
      let s1 := setup_provider_state st [("state", .str name)]
      if 200 ≤ s1.2.status ∧ s1.2.status < 300 then
        let s2 := provider_app s1.1 i.request
        (s2.1, responseMatches i s2.2)
      else (s1.1, false)
  | none =>
      let s2 := provider_app st i.request
      (s2.1, responseMatches i s2.2)

/-- Modelled from the spec: the Verifier replays the interactions strictly in
document order, threading the provider's (shared, mutable) store, and records
one pass/fail outcome per interaction. -/
def verifyAll (st : ProviderState) : List Interaction → ProviderState × List Bool
  | [] => (st, [])
  | i :: rest =>
      let s1 := verifyInteraction st i
      let s2 := verifyAll s1.1 rest
      (s2.1, s1.2 :: s2.2)

/-- `match.like` on a string example. -/
def likeStr (s : String) : Matcher := .typeLike (.str s)

/-- `match.like` on an integer example. -/
def likeNum (n : Int) : Matcher := .typeLike (.num n)

/-- The pattern r".+@.+" of the spec's scenario-A contract for GET /users/1. -/
def emailPattern : RE :=
  .cat (RE.plus .dot) (.cat (.chr '@') (RE.plus .dot))

/-- The pattern r".+@.+\..+" used by test_get_users_list. -/
def emailPatternWithDot : RE :=
  .cat (RE.plus .dot)
    (.cat (.chr '@') (.cat (RE.plus .dot) (.cat (.chr '.') (RE.plus .dot))))

/-- Interaction recorded by test_get_user_success
(src/tests/test_user_service_consumer.py): GET /users/1, state
"user 1 exists", 200 with all four fields type-matched. -/
def interaction_get_user_success : Interaction :=
  { description := "a request for user 1"
    provider_state := some "user 1 exists"
    request := ⟨"GET", "/users/1", [], none⟩
    expectedStatus := 200
    expectedBody := some (objLike
      [("id", likeNum 1), ("name", likeStr "John Doe"),
       ("email", likeStr "john@example.com"), ("username", likeStr "johndoe")]) }

/-- The spec's scenario-A expectation for the same interaction: id and name
type-matched, email matched by Regex(r".+@.+", "john@example.com"). -/
def scenarioAExpectedBody : Matcher :=
  objLike [("id", likeNum 1), ("name", likeStr "John Doe"),
          ("email", .regex emailPattern "john@example.com")]

/-- The scenario-A interaction verified by claim C2: the recorded GET /users/1
expectation under the spec's matching rules. -/
def interaction_scenario_a : Interaction :=
  { description := "a request for user 1"
    provider_state := some "user 1 exists"
    request := ⟨"GET", "/users/1", [], none⟩
    expectedStatus := 200
    expectedBody := some scenarioAExpectedBody }

/-- Interaction recorded by test_get_user_not_found: the expected body is a
plain dict, i.e. a Literal requiring exact equality. -/
def interaction_get_user_not_found : Interaction :=
  { description := "a request for user 999"
    provider_state := some "user 999 does not exist"
    request := ⟨"GET", "/users/999", [], none⟩
    expectedStatus := 404
    expectedBody := some (.lit (.obj [("error", .str "User not found")])) }

/-- Interaction recorded by test_get_users_list. -/
def interaction_get_users_list : Interaction :=
  { description := "a request for users list"
    provider_state := some "users exist"
    request := ⟨"GET", "/users", [("_limit", "10")], none⟩
    expectedStatus := 200
    expectedBody := some (.eachLike (objLike
      [("id", likeNum 1), ("name", likeStr "John Doe"),
       ("email", .regex emailPatternWithDot "john@example.com"),
       ("username", likeStr "johndoe")])) }

/-- Interaction recorded by test_create_user_success: plain dict values are
literals, the id is type-matched. -/
def interaction_create_user_success : Interaction :=
  { description := "a request to create a user"
    provider_state := some "user creation is allowed"
    request := ⟨"POST", "/users", [],
      some (.obj [("name", .str "Jane Smith"), ("email", .str "jane@example.com"),
                  ("username", .str "janesmith")])⟩
    expectedStatus := 201
    expectedBody := some (objLike
      [("id", likeNum 101), ("name", .lit (.str "Jane Smith")),
       ("email", .lit (.str "jane@example.com")),
       ("username", .lit (.str "janesmith"))]) }

/-- Interaction recorded by test_get_user_posts. -/
def interaction_get_user_posts : Interaction :=
  { description := "a request for user 1 posts"
    provider_state := some "user 1 has posts"
    request := ⟨"GET", "/posts", [("userId", "1")], none⟩
    expectedStatus := 200
    expectedBody := some (.eachLike (objLike
      [("id", likeNum 1), ("userId", likeNum 1),
       ("title", likeStr "Sample Post Title"),
       ("body", likeStr "Sample post body content")])) }

/-- Interaction recorded by test_create_user_validation_error. -/
def interaction_create_user_validation_error : Interaction :=
  { description := "a request to create user with invalid data"
    provider_state := some "user creation validation is enabled"
    request := ⟨"POST", "/users", [],
      some (.obj [("name", .str ""), ("email", .str "invalid-email"),
                  ("username", .str "usr")])⟩
    expectedStatus := 422
    expectedBody := some (objLike
      [("error", .lit (.str "Validation failed")),
       ("details", .eachLike (likeStr "Name is required"))]) }

/-- Interaction recorded by test_minimal_pact_interaction. -/
def interaction_minimal : Interaction :=
  { description := "a minimal request"
    provider_state := none
    request := ⟨"GET", "/minimal", [], none⟩
    expectedStatus := 200
    expectedBody := some (.lit (.obj [("result", .str "ok")])) }

/-- Interaction recorded by test_simple_provider_state. -/
def interaction_simple_provider_state : Interaction :=
  { description := "a request with provider state"
    provider_state := some "state A"
    request := ⟨"GET", "/state-a", [], none⟩
    expectedStatus := 200
    expectedBody := some (.lit (.obj [("result", .str "state-a-ok")])) }

/-- All interactions the consumer test suite records, in document order: the
full contract the Verifier replays. -/
def consumerContractInteractions : List Interaction :=
  [ interaction_get_user_success,
    interaction_get_user_not_found,
    interaction_get_users_list,
    interaction_create_user_success,
    interaction_get_user_posts,
    interaction_create_user_validation_error,
    interaction_minimal,
    interaction_simple_provider_state ]

/- ----------------------------------------------------------------------
Theorems
---------------------------------------------------------------------- -/

/-- The state-setup endpoint's response always carries status 200, whatever
the store and request body. -/
theorem setup_provider_state_status (st : ProviderState) (body : List (String × Json)) :
    (setup_provider_state st body).2.status = 200 := rfl

/-- C8: for every JSON-object request body — an unrecognized state name or a
missing "state" key included — POST /_pact/provider_states answers 200 with a
body of shape \x7b"result": ...\x7d; the endpoint never signals setup failure
with a non-2xx status, so no state name can produce a StateSetupError. -/
theorem c8_setup_never_fails (st : ProviderState) (body : List (String × Json)) :
    (setup_provider_state st body).2.status = 200 ∧
    ∃ msg, (setup_provider_state st body).2.body = .obj [("result", .str msg)] :=
  ⟨rfl, ⟨_, rfl⟩⟩

/-- C9: when no user in the store has the requested id, GET /users/\x7bid\x7d
responds 404 with body \x7b"detail": "User not found"\x7d (no "error" key) and
leaves the store untouched. -/
theorem c9_get_user_missing_404 (st : ProviderState) (user_id : Int)
    (h : ∀ u ∈ st.users_db, u.id ≠ user_id) :
    get_user st user_id =
      (st, ⟨404, .obj [("detail", .str "User not found")]⟩) := by
  unfold get_user
  have hf : st.users_db.find? (fun u => u.id = user_id) = none := by
    rw [List.find?_eq_none]
    intro u hu
    simpa using h u hu
  rw [hf]

/-- Witness for C9 at a concrete input: the initial store has no user 999. -/
theorem c9_get_user_missing_404_witness :
    get_user initProviderState 999 =
      (initProviderState, ⟨404, .obj [("detail", .str "User not found")]⟩) :=
  c9_get_user_missing_404 initProviderState 999 (by decide)

/-- C3: the workflow runner's main returns 0 exactly when both pytest
subprocesses return 0, returns 1 in every other case, and on consumer-test
failure returns 1 without launching provider verification. -/
theorem c3_runner_exit_code (inp : RunnerInput) :
    ((run_pact_tests_main inp).exit_code = 0 ↔
      (inp.consumer_returncode = 0 ∧ inp.provider_returncode = 0)) ∧
    ((run_pact_tests_main inp).exit_code = 0 ∨ (run_pact_tests_main inp).exit_code = 1) ∧
    (inp.consumer_returncode ≠ 0 →
      (run_pact_tests_main inp).exit_code = 1 ∧
      (run_pact_tests_main inp).provider_verification_attempted = false) := by
  unfold run_pact_tests_main
  by_cases h1 : inp.consumer_returncode = 0 <;>
    by_cases h2 : inp.provider_returncode = 0 <;>
    simp [h1, h2]

/-- Witness for C3 at a concrete input: consumer tests failing with code 1
make main return 1 with no provider verification. -/
theorem c3_runner_exit_code_witness :
    (run_pact_tests_main ⟨1, 0, none⟩).exit_code = 1 ∧
    (run_pact_tests_main ⟨1, 0, none⟩).provider_verification_attempted = false :=
  (c3_runner_exit_code ⟨1, 0, none⟩).2.2 (by decide)

/-- C7 fails as stated: PACT_BROKER_URL set to the empty string is "set", yet
Python's `if broker_url:` skips the broker step; and with the variable set to
a real URL but the consumer tests failing, the early `return 1` also skips
the broker step. -/
theorem c7_counterexample :
    ((⟨0, 0, some ""⟩ : RunnerInput).pact_broker_url ≠ none ∧
      (run_pact_tests_main ⟨0, 0, some ""⟩).broker_publish_attempted = false) ∧
    ((⟨1, 0, some "http://broker"⟩ : RunnerInput).pact_broker_url ≠ none ∧
      (run_pact_tests_main ⟨1, 0, some "http://broker"⟩).broker_publish_attempted = false) := by
  refine ⟨⟨?_, rfl⟩, ⟨?_, rfl⟩⟩ <;> simp

/-- C7 amended: when steps 1 and 3 both succeed, the broker step runs exactly
when PACT_BROKER_URL is set to a non-empty string (and is never reached when
either step fails); and whenever steps 1 and 3 both succeed, main returns 0
whatever the broker configuration. -/
theorem c7_broker_step (inp : RunnerInput) :
    (inp.consumer_returncode = 0 → inp.provider_returncode = 0 →
      ((run_pact_tests_main inp).broker_publish_attempted = true ↔
        ∃ s, inp.pact_broker_url = some s ∧ s ≠ "")) ∧
    (inp.consumer_returncode ≠ 0 ∨ inp.provider_returncode ≠ 0 →
      (run_pact_tests_main inp).broker_publish_attempted = false) ∧
    (inp.consumer_returncode = 0 → inp.provider_returncode = 0 →
      (run_pact_tests_main inp).exit_code = 0) := by
  unfold run_pact_tests_main
  by_cases h1 : inp.consumer_returncode = 0 <;>
    by_cases h2 : inp.provider_returncode = 0 <;>
    simp [h1, h2]
  cases hb : inp.pact_broker_url with
  | none => simp
  | some s =>
      simp only [Option.some.injEq, Bool.not_eq_true', exists_eq_left']
      rw [← Bool.not_eq_true]
      exact not_congr (String.isEmpty_iff s)

/-- Witness for C7 (amended) at a concrete input: with both steps succeeding
and a non-empty broker URL, the broker step runs and main returns 0. -/
theorem c7_broker_step_witness :
    (run_pact_tests_main ⟨0, 0, some "http://broker"⟩).broker_publish_attempted = true ∧
    (run_pact_tests_main ⟨0, 0, some "http://broker"⟩).exit_code = 0 :=
  ⟨((c7_broker_step ⟨0, 0, some "http://broker"⟩).1 rfl rfl).mpr
      ⟨"http://broker", rfl, by decide⟩,
    (c7_broker_step ⟨0, 0, some "http://broker"⟩).2.2 rfl rfl⟩

/-- C2: starting from the provider's initial store, after state setup for
"user 1 exists" the provider answers GET /users/1 with 200 and the serialized
user row; that body satisfies the recorded scenario-A expectation (integer id,
string name, email matching r".+@.+"), the unexpected "username" field being
ignored; hence the Verifier passes the interaction. -/
theorem c2_scenario_a_verification_passes :
    (get_user (setup_provider_state initProviderState
        [("state", Json.str "user 1 exists")]).1 1).2.status = 200 ∧
    (get_user (setup_provider_state initProviderState
        [("state", Json.str "user 1 exists")]).1 1).2.body =
      .obj [("id", .num 1), ("name", .str "John Doe"),
            ("email", .str "john@example.com"), ("username", .str "johndoe")] ∧
    scenarioAExpectedBody.matches
      (get_user (setup_provider_state initProviderState
        [("state", Json.str "user 1 exists")]).1 1).2.body = true ∧
    (verifyInteraction initProviderState interaction_scenario_a).2 = true :=
  ⟨rfl, rfl, rfl, rfl⟩

/-- C4: replaying the whole recorded contract in document order twice in a
row — state setup then recorded request for each interaction, the store
threaded throughout from the provider's initial store — produces the same
per-interaction pass/fail outcomes and the same aggregate result on both
runs, although the first run grew `users_db` (create_user appends a row). -/
theorem c4_replay_idempotent :
    (verifyAll initProviderState consumerContractInteractions).2 =
      (verifyAll (verifyAll initProviderState consumerContractInteractions).1
        consumerContractInteractions).2 ∧
    (verifyAll initProviderState consumerContractInteractions).2.all id =
      (verifyAll (verifyAll initProviderState consumerContractInteractions).1
        consumerContractInteractions).2.all id ∧
    (verifyAll initProviderState consumerContractInteractions).1.users_db ≠
      initProviderState.users_db :=
  ⟨rfl, rfl, by decide⟩

/-- Normal form of the "user 1 exists" state transition. -/
theorem setup_state_user1_fst (st : ProviderState) :
    (setup_provider_state st [("state", Json.str "user 1 exists")]).1 =
      if st.users_db.any (fun u => u.id = 1) then st
      else { st with users_db := st.users_db ++
        [⟨1, "John Doe", "john@example.com", "johndoe"⟩] } := rfl

/-- Normal form of the "user 999 does not exist" state transition. -/
theorem setup_state_999_fst (st : ProviderState) :
    (setup_provider_state st [("state", Json.str "user 999 does not exist")]).1 =
      { st with users_db := st.users_db.filter (fun u => u.id ≠ 999) } := rfl

/-- Normal form of the "users exist" state transition. -/
theorem setup_state_users_exist_fst (st : ProviderState) :
    (setup_provider_state st [("state", Json.str "users exist")]).1 =
      if st.users_db.length = 0 then
        { st with users_db := st.users_db ++
          [ ⟨1, "John Doe", "john@example.com", "johndoe"⟩,
            ⟨2, "Jane Smith", "jane@example.com", "janesmith"⟩ ] }
      else st := rfl

/-- Normal form of the "user 1 has posts" state transition. -/
theorem setup_state_posts_fst (st : ProviderState) :
    (setup_provider_state st [("state", Json.str "user 1 has posts")]).1 =
      if st.posts_db.any (fun p => p.userId = 1) then st
      else { st with posts_db := st.posts_db ++
        [⟨1, 1, "Sample Post Title", "Sample post body content"⟩] } := rfl

/-- The "user creation is allowed" state has no handler branch: it is a
no-op on the store. -/
theorem setup_state_allowed_fst (st : ProviderState) :
    (setup_provider_state st [("state", Json.str "user creation is allowed")]).1 = st := rfl

/-- The "user creation validation is enabled" state has no handler branch:
it is a no-op on the store. -/
theorem setup_state_validation_fst (st : ProviderState) :
    (setup_provider_state st
      [("state", Json.str "user creation validation is enabled")]).1 = st := rfl

/-- C1: from any store, POSTing each of the four handled state names to
/_pact/provider_states answers 200 (a 2xx response) and establishes the
named fixture: a user with id 1 after "user 1 exists", no user with id 999
after "user 999 does not exist", a non-empty `users_db` after "users exist",
and a post with userId 1 after "user 1 has posts". -/
theorem c1_setup_establishes_fixtures (st : ProviderState) :
    ((setup_provider_state st [("state", Json.str "user 1 exists")]).2.status = 200 ∧
      ∃ u ∈ (setup_provider_state st
        [("state", Json.str "user 1 exists")]).1.users_db, u.id = 1) ∧
    ((setup_provider_state st
        [("state", Json.str "user 999 does not exist")]).2.status = 200 ∧
      ∀ u ∈ (setup_provider_state st
        [("state", Json.str "user 999 does not exist")]).1.users_db, u.id ≠ 999) ∧
    ((setup_provider_state st [("state", Json.str "users exist")]).2.status = 200 ∧
      (setup_provider_state st [("state", Json.str "users exist")]).1.users_db ≠ []) ∧
    ((setup_provider_state st [("state", Json.str "user 1 has posts")]).2.status = 200 ∧
      ∃ p ∈ (setup_provider_state st
        [("state", Json.str "user 1 has posts")]).1.posts_db, p.userId = 1) := by
  refine ⟨⟨rfl, ?_⟩, ⟨rfl, ?_⟩, ⟨rfl, ?_⟩, ⟨rfl, ?_⟩⟩
  · rw [setup_state_user1_fst]
    by_cases h : st.users_db.any (fun u => u.id = 1) = true
    · rw [if_pos h]
      obtain ⟨u, hu, hid⟩ := List.any_eq_true.mp h
      exact ⟨u, hu, by simpa using hid⟩
    · rw [if_neg h]
      exact ⟨⟨1, "John Doe", "john@example.com", "johndoe"⟩, by simp, rfl⟩
  · rw [setup_state_999_fst]
    intro u hu
    simp only [List.mem_filter, decide_not] at hu
    simpa using hu.2
  · rw [setup_state_users_exist_fst]
    by_cases h : st.users_db.length = 0
    · rw [if_pos h]
      simp
    · rw [if_neg h]
      intro hnil
      exact h (by rw [hnil]; rfl)
  · rw [setup_state_posts_fst]
    by_cases h : st.posts_db.any (fun p => p.userId = 1) = true
    · rw [if_pos h]
      obtain ⟨p, hp, hid⟩ := List.any_eq_true.mp h
      exact ⟨p, hp, by simpa using hid⟩
    · rw [if_neg h]
      exact ⟨⟨1, 1, "Sample Post Title", "Sample post body content"⟩, by simp, rfl⟩

/-- C5: the "user 999 does not exist" setup removes exactly the users with
id 999 — the surviving rows keep their relative order (sublist of the old
store), none of them has id 999, every other row survives — and `posts_db`
is untouched. -/
theorem c5_state_999_frame (st : ProviderState) :
    List.Sublist
      (setup_provider_state st
        [("state", Json.str "user 999 does not exist")]).1.users_db
      st.users_db ∧
    (∀ u ∈ (setup_provider_state st
        [("state", Json.str "user 999 does not exist")]).1.users_db, u.id ≠ 999) ∧
    (∀ u ∈ st.users_db, u.id ≠ 999 → u ∈ (setup_provider_state st
        [("state", Json.str "user 999 does not exist")]).1.users_db) ∧
    (setup_provider_state st
        [("state", Json.str "user 999 does not exist")]).1.posts_db = st.posts_db := by
  rw [setup_state_999_fst]
  refine ⟨List.filter_sublist _, ?_, ?_, rfl⟩
  · intro u hu
    simp only [List.mem_filter, decide_not] at hu
    simpa using hu.2
  · intro u hu hne
    simp only [List.mem_filter, decide_not]
    exact ⟨hu, by simpa using hne⟩

/-- C6: GET /_pact/provider_states answers 200 with exactly the six state
names in their declared order, and POSTing any of the six to the setup
endpoint answers with a 2xx status from any store. -/
theorem c6_provider_states_discovery :
    get_provider_states.status = 200 ∧
    get_provider_states.body = .obj [("states", .arr
      [.str "user 1 exists", .str "user 999 does not exist", .str "users exist",
       .str "user creation is allowed", .str "user 1 has posts",
       .str "user creation validation is enabled"])] ∧
    ∀ name ∈ providerStateNames, ∀ st : ProviderState,
      200 ≤ (setup_provider_state st [("state", Json.str name)]).2.status ∧
      (setup_provider_state st [("state", Json.str name)]).2.status < 300 := by
  refine ⟨rfl, rfl, ?_⟩
  intro name _ st
  rw [setup_provider_state_status]
  omega

/-- Witness for C6 at a concrete input: the fourth listed name yields a 2xx
setup response on the initial store. -/
theorem c6_provider_states_discovery_witness :
    200 ≤ (setup_provider_state initProviderState
      [("state", Json.str "user creation is allowed")]).2.status ∧
    (setup_provider_state initProviderState
      [("state", Json.str "user creation is allowed")]).2.status < 300 :=
  c6_provider_states_discovery.2.2 "user creation is allowed" (by decide)
    initProviderState

/-- Applying the "user 1 exists" setup twice equals applying it once. -/
theorem setup_user1_idem (st : ProviderState) :
    (setup_provider_state (setup_provider_state st
        [("state", Json.str "user 1 exists")]).1
      [("state", Json.str "user 1 exists")]).1 =
      (setup_provider_state st [("state", Json.str "user 1 exists")]).1 := by
  rw [setup_state_user1_fst st]
  by_cases h : st.users_db.any (fun u => u.id = 1) = true
  · rw [if_pos h, setup_state_user1_fst st, if_pos h]
  · rw [if_neg h, setup_state_user1_fst]
    have h2 : ({ st with users_db := st.users_db ++
        [⟨1, "John Doe", "john@example.com", "johndoe"⟩] } :
        ProviderState).users_db.any (fun u => u.id = 1) = true := by
      simp [List.any_append]
    rw [if_pos h2]

/-- Applying the "user 999 does not exist" setup twice equals applying it
once: filtering is idempotent. -/
theorem setup_999_idem (st : ProviderState) :
    (setup_provider_state (setup_provider_state st
        [("state", Json.str "user 999 does not exist")]).1
      [("state", Json.str "user 999 does not exist")]).1 =
      (setup_provider_state st
        [("state", Json.str "user 999 does not exist")]).1 := by
  rw [setup_state_999_fst st, setup_state_999_fst]
  simp [List.filter_filter]

/-- Applying the "users exist" setup twice equals applying it once. -/
theorem setup_users_exist_idem (st : ProviderState) :
    (setup_provider_state (setup_provider_state st
        [("state", Json.str "users exist")]).1
      [("state", Json.str "users exist")]).1 =
      (setup_provider_state st [("state", Json.str "users exist")]).1 := by
  rw [setup_state_users_exist_fst st]
  by_cases h : st.users_db.length = 0
  · rw [if_pos h, setup_state_users_exist_fst]
    have h2 : ¬(({ st with users_db := st.users_db ++
        [ ⟨1, "John Doe", "john@example.com", "johndoe"⟩,
          ⟨2, "Jane Smith", "jane@example.com", "janesmith"⟩ ] } :
        ProviderState).users_db.length = 0) := by
      simp
    rw [if_neg h2]
  · rw [if_neg h, setup_state_users_exist_fst, if_neg h]

/-- Applying the "user 1 has posts" setup twice equals applying it once. -/
theorem setup_posts_idem (st : ProviderState) :
    (setup_provider_state (setup_provider_state st
        [("state", Json.str "user 1 has posts")]).1
      [("state", Json.str "user 1 has posts")]).1 =
      (setup_provider_state st [("state", Json.str "user 1 has posts")]).1 := by
  rw [setup_state_posts_fst st]
  by_cases h : st.posts_db.any (fun p => p.userId = 1) = true
  · rw [if_pos h, setup_state_posts_fst st, if_pos h]
  · rw [if_neg h, setup_state_posts_fst]
    have h2 : ({ st with posts_db := st.posts_db ++
        [⟨1, 1, "Sample Post Title", "Sample post body content"⟩] }  :
        ProviderState).posts_db.any (fun p => p.userId = 1) = true := by
      simp [List.any_append]
    rw [if_pos h2]

/-- C10: for every state name the discovery endpoint lists, POSTing it to
/_pact/provider_states twice in succession leaves `users_db` and `posts_db`
exactly as POSTing it once: every setup operation is idempotent on the
store. -/
theorem c10_setup_idempotent (st : ProviderState) (name : String)
    (h : name ∈ providerStateNames) :
    (setup_provider_state (setup_provider_state st
        [("state", Json.str name)]).1 [("state", Json.str name)]).1 =
      (setup_provider_state st [("state", Json.str name)]).1 := by
  fin_cases h
  · exact setup_user1_idem st
  · exact setup_999_idem st
  · exact setup_users_exist_idem st
  · rw [setup_state_allowed_fst, setup_state_allowed_fst]
  · exact setup_posts_idem st
  · rw [setup_state_validation_fst, setup_state_validation_fst]

/-- Witness for C10 at a concrete input: the "user 1 exists" setup is
idempotent on the initial store. -/
theorem c10_setup_idempotent_witness :
    (setup_provider_state (setup_provider_state initProviderState
        [("state", Json.str "user 1 exists")]).1
      [("state", Json.str "user 1 exists")]).1 =
      (setup_provider_state initProviderState
        [("state", Json.str "user 1 exists")]).1 :=
  c10_setup_idempotent initProviderState "user 1 exists" (by decide)
